import Mathlib

/-!
Shallow embedding of the GARI backend core (lobby lifecycle, membership,
chat, finalization, rating) translated from the JavaScript source:

* `src/unnamed/part_000` — lobby routes (create, join, leave, status update)
* `src/routes/rides.js` — ride completion (finalization) and rating
* `src/unnamed/part_001` — chat REST routes
* `src/services/socketService.js` — Socket.IO handlers
* `src/middleware/validation.js` — request validation rules
* `src/config/database.js` — table shapes

Database rows become Lean structures, the Postgres tables become lists of
rows inside a `DBState`, SQL id generation becomes explicit counters, and
each route handler becomes a function from a state (plus request data) to a
result together with a successor state.  Statuses are kept as strings,
exactly as the VARCHAR columns store them.
-/

instance {ε α : Type} [DecidableEq ε] [DecidableEq α] : DecidableEq (Except ε α) := fun a b =>
  match a, b with
  | .ok a, .ok b => decidable_of_iff (a = b) (by simp)
  | .error a, .error b => decidable_of_iff (a = b) (by simp)
  | .ok _, .error _ => isFalse (by simp)
  | .error _, .ok _ => isFalse (by simp)

/-- A row of the `users` table, restricted to the fields the core mutates
or reads: id, cumulative ride count, running rating. -/
structure User where
  id : Nat
  total_rides : Nat
  rating : Rat
deriving DecidableEq, Repr

/-- A row of the `lobbies` table (fields relevant to the core). -/
structure Lobby where
  id : Nat
  creator_id : Nat
  from_location : String
  to_location : String
  available_seats : Nat
  status : String
deriving DecidableEq, Repr

/-- A row of the `lobby_members` table. -/
structure LobbyMember where
  lobby_id : Nat
  user_id : Nat
  pickup_location : String
  status : String
deriving DecidableEq, Repr

/-- A row of the `chat_messages` table. -/
structure ChatMessage where
  lobby_id : Nat
  user_id : Nat
  message : String
  message_type : String
deriving DecidableEq, Repr

/-- A row of the `rides` table. -/
structure Ride where
  id : Nat
  lobby_id : Nat
  driver_id : Nat
  from_location : String
  to_location : String
  total_amount : Rat
  distance_km : Rat
  duration_minutes : Nat
  status : String
deriving DecidableEq, Repr

/-- A row of the `ride_participants` table. -/
structure RideParticipant where
  ride_id : Nat
  user_id : Nat
  amount_paid : Rat
  pickup_location : String
  dropoff_location : String
  rating : Option Nat
  review : Option String
deriving DecidableEq, Repr

/-- The persistent store: one list per table, plus counters standing in for
the database's id generation for lobbies and rides. -/
structure DBState where
  users : List User
  lobbies : List Lobby
  lobby_members : List LobbyMember
  chat_messages : List ChatMessage
  rides : List Ride
  ride_participants : List RideParticipant
  next_lobby_id : Nat
  next_ride_id : Nat
deriving DecidableEq, Repr

/-- The empty database. -/
def initState : DBState :=
  { users := [], lobbies := [], lobby_members := [], chat_messages := []
    rides := [], ride_participants := [], next_lobby_id := 0, next_ride_id := 0 }

/-- Query `SELECT COUNT(*) FROM lobby_members WHERE lobby_id = $1 AND status = 'active'`. -/
def activeCount (s : DBState) (lid : Nat) : Nat :=
  s.lobby_members.countP (fun m => m.lobby_id == lid && m.status == "active")

/-- Query `SELECT * FROM lobby_members WHERE lobby_id = $1 AND status = 'active'`. -/
def activeMembersOf (s : DBState) (lid : Nat) : List LobbyMember :=
  s.lobby_members.filter (fun m => m.lobby_id == lid && m.status == "active")

/- ### Lobby creation — `POST /` in the lobby router (part_000, lines 389-457) -/

inductive CreateError
  | invalidInput
deriving DecidableEq, Repr

/-- Route `POST /` (create lobby).  The `createLobbyValidation` middleware requires
`availableSeats` to be an integer between 1 and 15; on success the route
inserts the lobby row (status defaulting to `'active'` per the table
definition) and then inserts the creator as the first member, with the
lobby's origin as pickup location. -/
def createLobby (s : DBState) (creator : Nat) (fromLoc toLoc : String) (seats : Nat) :
    Except CreateError Lobby × DBState :=
  if seats < 1 || 15 < seats then
    (.error .invalidInput, s)
  else
    let lobby : Lobby :=
      { id := s.next_lobby_id, creator_id := creator, from_location := fromLoc
        to_location := toLoc, available_seats := seats, status := "active" }
    let member : LobbyMember :=
      { lobby_id := lobby.id, user_id := creator
        pickup_location := fromLoc, status := "active" }
    (.ok lobby,
      { s with
        lobbies := s.lobbies ++ [lobby]
        lobby_members := s.lobby_members ++ [member]
        next_lobby_id := s.next_lobby_id + 1 })

/- ### Joining — `POST /:id/join` (part_000, lines 608-673) -/

inductive JoinError
  | lobbyNotFoundOrNotActive
  | alreadyMember
  | lobbyFull
deriving DecidableEq, Repr

/-- Route `POST /:id/join`.  Checks, in source order: the lobby exists with status
`'active'`; no `lobby_members` row exists for this (lobby, user) pair — the
query has no status filter, so a row with status `'left'` also blocks the
join; the active-member count is below `available_seats`.  Then inserts an
active membership whose pickup defaults to the lobby's origin. -/
def joinLobby (s : DBState) (lid uid : Nat) (pickup : Option String) :
    Except JoinError Unit × DBState :=
  match s.lobbies.find? (fun l => l.id == lid && l.status == "active") with
  | none => (.error .lobbyNotFoundOrNotActive, s)
  | some lobby =>
    if (s.lobby_members.find? (fun m => m.lobby_id == lid && m.user_id == uid)).isSome then
      (.error .alreadyMember, s)
    else if lobby.available_seats ≤ activeCount s lid then
      (.error .lobbyFull, s)
    else
      (.ok (),
        { s with
          lobby_members := s.lobby_members ++
            [{ lobby_id := lid, user_id := uid
               pickup_location := pickup.getD lobby.from_location, status := "active" }] })

/- ### Leaving — `POST /:id/leave` (part_000, lines 676-726) -/

inductive LeaveError
  | notAMember
  | internalFailure
deriving DecidableEq, Repr

/-- The `UPDATE lobby_members SET status = 'left' WHERE lobby_id = $2 AND
user_id = $3` write, applied to the members table. -/
def markLeft (lid uid : Nat) (members : List LobbyMember) : List LobbyMember :=
  members.map (fun m =>
    if m.lobby_id == lid && m.user_id == uid then { m with status := "left" } else m)

/-- The `UPDATE lobbies SET status = 'cancelled' WHERE id = $2` write. -/
def cancelAt (lid : Nat) : Lobby → Lobby :=
  fun l => if l.id == lid then { l with status := "cancelled" } else l

/-- Route `POST /:id/leave`.  Requires an active membership row; marks it `'left'`;
then reads the lobby's creator and, when the leaver is the creator, sets the
lobby status to `'cancelled'`.  The two writes are separate queries (no
transaction): if the lobby row were missing after the member update, the
handler would fail having already marked the member left. -/
def leaveLobby (s : DBState) (lid uid : Nat) : Except LeaveError Unit × DBState :=
  match s.lobby_members.find?
      (fun m => m.lobby_id == lid && m.user_id == uid && m.status == "active") with
  | none => (.error .notAMember, s)
  | some _ =>
    let s1 := { s with lobby_members := markLeft lid uid s.lobby_members }
    match s.lobbies.find? (fun l => l.id == lid) with
    | none => (.error .internalFailure, s1)
    | some lobby =>
      if lobby.creator_id == uid then
        (.ok (), { s1 with lobbies := s1.lobbies.map (cancelAt lid) })
      else
        (.ok (), s1)

/- ### Status update — `PUT /:id/status` (part_000, lines 729-780) -/

inductive StatusError
  | invalidStatus
  | lobbyNotFound
  | notCreator
deriving DecidableEq, Repr

/-- The whitelist `['active', 'started', 'completed', 'cancelled']` checked
by the status-update route. -/
def validStatuses : List String := ["active", "started", "completed", "cancelled"]

/-- Route `PUT /:id/status`.  Rejects a status outside the four-element whitelist;
requires the lobby to exist and the requester to be its creator; then writes
the requested status unconditionally — the lobby's current status is never
consulted, so there is no reachability check on transitions. -/
def updateLobbyStatus (s : DBState) (lid uid : Nat) (status : String) :
    Except StatusError Unit × DBState :=
  if !(validStatuses.contains status) then
    (.error .invalidStatus, s)
  else
    match s.lobbies.find? (fun l => l.id == lid) with
    | none => (.error .lobbyNotFound, s)
    | some lobby =>
      if !(lobby.creator_id == uid) then
        (.error .notCreator, s)
      else
        (.ok (),
          { s with
            lobbies := s.lobbies.map
              (fun l => if l.id == lid then { l with status := status } else l) })

/-- Socket.IO `lobby_status_update` handler (socketService.js, lines
143-177).  Requires only that the requester is the lobby's creator; the
requested status string is written to the lobby with no validation at all —
not even membership in the four-status whitelist. -/
def socketUpdateLobbyStatus (s : DBState) (lid uid : Nat) (status : String) :
    Except StatusError Unit × DBState :=
  match s.lobbies.find? (fun l => l.id == lid && l.creator_id == uid) with
  | none => (.error .notCreator, s)
  | some _ =>
    (.ok (),
      { s with
        lobbies := s.lobbies.map
          (fun l => if l.id == lid then { l with status := status } else l) })

/- ### Finalization — `POST /complete/:lobbyId` (rides.js, lines 10-125) -/

inductive CompleteError
  | notFoundOrNotAuthorized
  | noActiveMembers
  | poolUndefined
deriving DecidableEq, Repr

/-- The predicate of `SELECT * FROM lobbies WHERE id = $1 AND creator_id = $2
AND status = 'started'`. -/
def startedLobbyPred (lid uid : Nat) : Lobby → Bool :=
  fun l => l.id == lid && l.creator_id == uid && l.status == "started"

/-- Route `POST /complete/:lobbyId`.  Looks up the lobby by id, creator and
status `'started'` in one query; requires at least one active member; then
evaluates `query.pool.connect()` to open the transaction — but
`config/database.js` exports `query` as a bare arrow function with no
`pool` property, so `query.pool` is undefined and this line throws a
TypeError on every request that reaches it.  The outer catch answers 500
("Failed to complete ride") and none of the transaction's intended writes
(the ride insert, the per-member participant inserts and ride-count
updates, the lobby status update) is ever executed: the route never
succeeds and never modifies the store. -/
def completeRide (s : DBState) (lid uid : Nat) (amt dist : Rat) (dur : Nat) :
    Except CompleteError Ride × DBState :=
  match s.lobbies.find? (startedLobbyPred lid uid) with
  | none => (.error .notFoundOrNotAuthorized, s)
  | some _ =>
    if (activeMembersOf s lid).isEmpty then
      (.error .noActiveMembers, s)
    else
      (.error .poolUndefined, s)

/- ### Rating — `POST /:id/rate` (rides.js, lines 189-279) -/

inductive RateError
  | missingFields
  | invalidScore
  | raterNotParticipant
  | rateeNotParticipant
  | alreadyRated
deriving DecidableEq, Repr

/-- The ratings feeding `SELECT AVG(rating) FROM ride_participants WHERE
user_id = $1 AND rating IS NOT NULL`: every non-null rating across all of a
user's participant rows. -/
def nonNullRatingsOf (parts : List RideParticipant) (uid : Nat) : List Nat :=
  (parts.filter (fun p => p.user_id == uid)).filterMap (fun p => p.rating)

/-- Arithmetic mean of a list of integer ratings, as a rational. -/
def meanRating (rs : List Nat) : Rat :=
  (rs.map (fun r => (r : Rat))).sum / (rs.length : Rat)

/-- The write pair of a successful rate call: set the ratee's participant
rating/review (`UPDATE ride_participants SET rating, review ...`), then
store the freshly recomputed average on the ratee's user row
(`UPDATE users SET rating ...` after the `AVG(rating)` query). -/
def rateApply (s : DBState) (rid ratee score : Nat) (review : Option String) : DBState :=
  let parts := s.ride_participants.map (fun p =>
    if p.ride_id == rid && p.user_id == ratee then
      { p with rating := some score, review := review }
    else p)
  let avg := meanRating (nonNullRatingsOf parts ratee)
  { s with
    ride_participants := parts
    users := s.users.map (fun u =>
      if u.id == ratee then { u with rating := avg } else u) }

/-- Route `POST /:id/rate`.  In source order: rejects a missing rating (`!rating`,
which a score of 0 triggers); rejects a score outside 1-5; requires the
rater and then the ratee to each have a participant row for the ride;
rejects when the ratee's row already has a non-null rating; then sets the
ratee's rating/review and recomputes the ratee's user rating from scratch
as the average of all their non-null participant ratings. -/
def rateParticipant (s : DBState) (rid rater ratee score : Nat)
    (review : Option String) : Except RateError Unit × DBState :=
  if score == 0 then
    (.error .missingFields, s)
  else if score < 1 || 5 < score then
    (.error .invalidScore, s)
  else if (s.ride_participants.find?
      (fun p => p.ride_id == rid && p.user_id == rater)).isNone then
    (.error .raterNotParticipant, s)
  else if (s.ride_participants.find?
      (fun p => p.ride_id == rid && p.user_id == ratee)).isNone then
    (.error .rateeNotParticipant, s)
  else if (s.ride_participants.find?
      (fun p => p.ride_id == rid && p.user_id == ratee && p.rating.isSome)).isSome then
    (.error .alreadyRated, s)
  else
    (.ok (), rateApply s rid ratee score review)

/- ### Chat — REST route (part_001, lines 71-130) and socket handler
(socketService.js, lines 72-111) -/

inductive ChatError
  | validationFailed
  | notAuthorized
deriving DecidableEq, Repr

/-- The message kinds accepted by `sendMessageValidation`. -/
def validMessageTypes : List String := ["text", "image", "location"]

/-- Whitespace as stripped by the JS `trim()` sanitizer (the common cases:
space, tab, newline, carriage return). -/
def isWhitespaceChar (c : Char) : Bool :=
  c == ' ' || c == '\t' || c == '\n' || c == '\r'

/-- The `.trim()` sanitizer of `sendMessageValidation`: strip leading and
trailing whitespace from the message, modelled over the character list. -/
def trimString (s : String) : String :=
  ⟨((s.data.dropWhile isWhitespaceChar).reverse.dropWhile isWhitespaceChar).reverse⟩

/-- Route `POST /lobby/:lobbyId/message`.  The `sendMessageValidation` middleware
trims the message and requires the trimmed length to be 1-1000 and the
optional `messageType` to be in the whitelist; the handler then requires an
active membership and inserts the (trimmed) message, the type defaulting to
`'text'`. -/
def sendMessageRest (s : DBState) (lid uid : Nat) (message : String)
    (messageType : Option String) : Except ChatError ChatMessage × DBState :=
  if (trimString message).length < 1 || 1000 < (trimString message).length then
    (.error .validationFailed, s)
  else if !((messageType.getD "text") ∈ validMessageTypes) then
    (.error .validationFailed, s)
  else
    match s.lobby_members.find?
        (fun m => m.lobby_id == lid && m.user_id == uid && m.status == "active") with
    | none => (.error .notAuthorized, s)
    | some _ =>
      (.ok { lobby_id := lid, user_id := uid, message := trimString message
             message_type := messageType.getD "text" },
        { s with chat_messages := s.chat_messages ++
            [{ lobby_id := lid, user_id := uid, message := trimString message
               message_type := messageType.getD "text" }] })

/-- Socket.IO `send_message` handler.  Requires an active membership, then
inserts the raw message and type (defaulting to `'text'`) with no length or
whitelist validation of any kind. -/
def sendMessageSocket (s : DBState) (lid uid : Nat) (message : String)
    (messageType : Option String) : Except ChatError ChatMessage × DBState :=
  match s.lobby_members.find?
      (fun m => m.lobby_id == lid && m.user_id == uid && m.status == "active") with
  | none => (.error .notAuthorized, s)
  | some _ =>
    let msg : ChatMessage :=
      { lobby_id := lid, user_id := uid, message := message
        message_type := messageType.getD "text" }
    (.ok msg, { s with chat_messages := s.chat_messages ++ [msg] })

/- ### Operation sequences for the capacity invariant -/

/-- One membership-affecting request, for reasoning about arbitrary
create/join/leave interleavings. -/
inductive LobbyOp
  | create (creator : Nat) (fromLoc toLoc : String) (seats : Nat)
  | join (lid uid : Nat) (pickup : Option String)
  | leave (lid uid : Nat)

/-- Apply one request to the store, keeping the successor state. -/
def applyOp (s : DBState) : LobbyOp → DBState
  | .create c f t n => (createLobby s c f t n).2
  | .join l u p => (joinLobby s l u p).2
  | .leave l u => (leaveLobby s l u).2

/-- Run a sequence of requests against the empty database, first request
first. -/
def runOps (ops : List LobbyOp) : DBState :=
  ops.foldl applyOp initState

/- ### Store well-formedness maintained by the lobby routes -/

/-- Invariants of the stored tables maintained by the membership routes:
lobby ids are distinct and below the id counter, member rows reference
allocated lobby ids, and no lobby's active-member count exceeds its seat
capacity. -/
def StoreWF (s : DBState) : Prop :=
  (s.lobbies.map (fun l => l.id)).Nodup ∧
  (∀ l ∈ s.lobbies, l.id < s.next_lobby_id) ∧
  (∀ m ∈ s.lobby_members, m.lobby_id < s.next_lobby_id) ∧
  (∀ l ∈ s.lobbies, activeCount s l.id ≤ l.available_seats)

theorem initState_WF : StoreWF initState := by
  refine ⟨?_, ?_, ?_, ?_⟩ <;> simp [initState, activeCount]

theorem createLobby_WF (s : DBState) (c : Nat) (f t : String) (n : Nat)
    (h : StoreWF s) : StoreWF (createLobby s c f t n).2 := by
  obtain ⟨hnd, hlt, hmem, hcap⟩ := h
  unfold createLobby
  split
  · exact ⟨hnd, hlt, hmem, hcap⟩
  · rename_i hn
    simp only [Bool.or_eq_true, decide_eq_true_eq, not_or, not_lt] at hn
    dsimp only
    refine ⟨?_, ?_, ?_, ?_⟩
    · simp only [List.map_append, List.map_cons, List.map_nil]
      rw [List.nodup_append]
      refine ⟨hnd, List.nodup_singleton _, ?_⟩
      intro a ha hb
      simp only [List.mem_singleton] at hb
      obtain ⟨l, hl, hid⟩ := List.mem_map.mp ha
      have := hlt l hl
      omega
    · intro l hl
      rcases List.mem_append.mp hl with h1 | h1
      · exact Nat.lt_succ_of_lt (hlt l h1)
      · simp only [List.mem_singleton] at h1
        subst h1; simp
    · intro m hm
      rcases List.mem_append.mp hm with h1 | h1
      · exact Nat.lt_succ_of_lt (hmem m h1)
      · simp only [List.mem_singleton] at h1
        subst h1; simp
    · intro l hl
      simp only [activeCount, List.countP_append, List.countP_singleton]
      rcases List.mem_append.mp hl with h1 | h1
      · have hid := hlt l h1
        have hbeq : (s.next_lobby_id == l.id) = false := by
          simp only [beq_eq_false_iff_ne, ne_eq]
          omega
        have hc := hcap l h1
        simp only [activeCount] at hc
        simp only [hbeq, Bool.false_and]
        simpa using hc
      · simp only [List.mem_singleton] at h1
        subst h1
        have hz : s.lobby_members.countP
            (fun m => m.lobby_id == s.next_lobby_id && m.status == "active") = 0 := by
          rw [List.countP_eq_zero]
          intro m hm
          have := hmem m hm
          simp only [Bool.and_eq_true, beq_iff_eq, not_and]
          intro hx
          omega
        simp only [hz]
        simpa using hn.1

theorem joinLobby_WF (s : DBState) (lid uid : Nat) (pickup : Option String)
    (h : StoreWF s) : StoreWF (joinLobby s lid uid pickup).2 := by
  obtain ⟨hnd, hlt, hmem, hcap⟩ := h
  unfold joinLobby
  split
  · exact ⟨hnd, hlt, hmem, hcap⟩
  · rename_i lobby hfind
    split
    · exact ⟨hnd, hlt, hmem, hcap⟩
    · split
      · exact ⟨hnd, hlt, hmem, hcap⟩
      · rename_i hnomem hfull
        dsimp only
        have hlobmem : lobby ∈ s.lobbies := List.mem_of_find?_eq_some hfind
        have hpred := List.find?_some hfind
        simp only [Bool.and_eq_true, beq_iff_eq] at hpred
        obtain ⟨hlid, hstat⟩ := hpred
        refine ⟨hnd, hlt, ?_, ?_⟩
        · intro m hm
          rcases List.mem_append.mp hm with h1 | h1
          · exact hmem m h1
          · simp only [List.mem_singleton] at h1
            subst h1
            exact hlid ▸ hlt lobby hlobmem
        · intro l hl
          simp only [activeCount, List.countP_append, List.countP_singleton]
          by_cases hcase : l.id = lid
          · have hleq : l = lobby :=
              List.inj_on_of_nodup_map hnd hl hlobmem (by rw [hcase, hlid])
            subst hleq
            have hb : (lid == l.id && ("active" : String) == "active") = true := by
              simp [hcase]
            rw [hb]
            simp only [if_true]
            simp only [activeCount, not_le] at hfull
            rw [hcase]
            omega
          · have hb : (lid == l.id) = false := by
              simp only [beq_eq_false_iff_ne, ne_eq]
              exact fun hh => hcase hh.symm
            have hc := hcap l hl
            simp only [activeCount] at hc
            simp only [hb, Bool.false_and]
            simpa using hc

theorem markLeft_countP_le (lid uid x : Nat) (ms : List LobbyMember) :
    (markLeft lid uid ms).countP (fun m => m.lobby_id == x && m.status == "active") ≤
      ms.countP (fun m => m.lobby_id == x && m.status == "active") := by
  unfold markLeft
  rw [List.countP_map]
  apply List.countP_mono_left
  intro m hm hp
  simp only [Function.comp_apply] at hp
  split at hp
  · simp at hp
  · exact hp

theorem markLeft_lobby_id (lid uid : Nat) (ms : List LobbyMember) (m : LobbyMember)
    (hm : m ∈ markLeft lid uid ms) : ∃ m0 ∈ ms, m.lobby_id = m0.lobby_id := by
  unfold markLeft at hm
  obtain ⟨m0, hm0, rfl⟩ := List.mem_map.mp hm
  refine ⟨m0, hm0, ?_⟩
  split <;> rfl

theorem cancelAt_id (lid : Nat) (l : Lobby) : (cancelAt lid l).id = l.id := by
  unfold cancelAt; split <;> rfl

theorem cancelAt_seats (lid : Nat) (l : Lobby) :
    (cancelAt lid l).available_seats = l.available_seats := by
  unfold cancelAt; split <;> rfl

theorem leaveLobby_WF (s : DBState) (lid uid : Nat) (h : StoreWF s) :
    StoreWF (leaveLobby s lid uid).2 := by
  obtain ⟨hnd, hlt, hmem, hcap⟩ := h
  have hmem1 : ∀ m ∈ markLeft lid uid s.lobby_members, m.lobby_id < s.next_lobby_id := by
    intro m hm
    obtain ⟨m0, hm0, he⟩ := markLeft_lobby_id lid uid s.lobby_members m hm
    rw [he]
    exact hmem m0 hm0
  have hcap1 : ∀ x, (markLeft lid uid s.lobby_members).countP
      (fun m => m.lobby_id == x && m.status == "active") ≤
      s.lobby_members.countP (fun m => m.lobby_id == x && m.status == "active") :=
    fun x => markLeft_countP_le lid uid x s.lobby_members
  unfold leaveLobby
  split
  · exact ⟨hnd, hlt, hmem, hcap⟩
  · rename_i m0 hfind0
    split
    · dsimp only
      refine ⟨hnd, hlt, hmem1, ?_⟩
      intro l hl
      have hc := hcap l hl
      simp only [activeCount] at hc ⊢
      exact le_trans (hcap1 l.id) hc
    · rename_i lobby hfind
      split
      · dsimp only
        refine ⟨?_, ?_, hmem1, ?_⟩
        · rw [List.map_map]
          have : s.lobbies.map (fun l => l.id) =
              s.lobbies.map ((fun l => l.id) ∘ cancelAt lid) :=
            List.map_congr_left (fun l _ => (cancelAt_id lid l).symm)
          rw [← this]
          exact hnd
        · intro l hl
          obtain ⟨l0, hl0, rfl⟩ := List.mem_map.mp hl
          rw [cancelAt_id]
          exact hlt l0 hl0
        · intro l hl
          obtain ⟨l0, hl0, rfl⟩ := List.mem_map.mp hl
          rw [cancelAt_id, cancelAt_seats]
          have hc := hcap l0 hl0
          simp only [activeCount] at hc ⊢
          exact le_trans (hcap1 l0.id) hc
      · dsimp only
        refine ⟨hnd, hlt, hmem1, ?_⟩
        intro l hl
        have hc := hcap l hl
        simp only [activeCount] at hc ⊢
        exact le_trans (hcap1 l.id) hc

theorem applyOp_WF (s : DBState) (op : LobbyOp) (h : StoreWF s) :
    StoreWF (applyOp s op) := by
  cases op with
  | create c f t n => exact createLobby_WF s c f t n h
  | join l u p => exact joinLobby_WF s l u p h
  | leave l u => exact leaveLobby_WF s l u h

theorem foldl_applyOp_WF (ops : List LobbyOp) (s : DBState) (h : StoreWF s) :
    StoreWF (ops.foldl applyOp s) := by
  induction ops generalizing s with
  | nil => exact h
  | cons op ops ih => exact ih _ (applyOp_WF s op h)

theorem runOps_WF (ops : List LobbyOp) : StoreWF (runOps ops) :=
  foldl_applyOp_WF ops initState initState_WF

/-- C3: after any sequence of create/join/leave operations against the
empty store, every lobby's active-member count stays within its seat
capacity; and a join attempt that reaches the capacity check when the
active-member count is at or above capacity fails with `LobbyFull` and
changes nothing. -/
theorem lobby_capacity_invariant :
    (∀ ops : List LobbyOp, ∀ l ∈ (runOps ops).lobbies,
        activeCount (runOps ops) l.id ≤ l.available_seats) ∧
    (∀ (s : DBState) (lid uid : Nat) (pickup : Option String) (lobby : Lobby),
        s.lobbies.find? (fun l => l.id == lid && l.status == "active") = some lobby →
        s.lobby_members.find? (fun m => m.lobby_id == lid && m.user_id == uid) = none →
        lobby.available_seats ≤ activeCount s lid →
        joinLobby s lid uid pickup = (.error .lobbyFull, s)) := by
  constructor
  · intro ops l hl
    exact (runOps_WF ops).2.2.2 l hl
  · intro s lid uid pickup lobby hfind hnomem hfull
    unfold joinLobby
    rw [hfind, hnomem]
    simp [hfull]

/-- A lobby of capacity 1 whose single seat is taken by its creator. -/
def fullLobbyState : DBState := runOps [LobbyOp.create 1 "Bole" "Piassa" 1]

/-- Witness for C3: a two-op run respects capacity, and joining the full
capacity-1 lobby fails with `LobbyFull`. -/
theorem lobby_capacity_invariant_witness :
    activeCount (runOps [LobbyOp.create 1 "Bole" "Piassa" 2, LobbyOp.join 0 2 none]) 0 ≤ 2 ∧
    joinLobby fullLobbyState 0 2 none = (.error .lobbyFull, fullLobbyState) := by
  constructor
  · exact lobby_capacity_invariant.1
      [LobbyOp.create 1 "Bole" "Piassa" 2, LobbyOp.join 0 2 none]
      ⟨0, 1, "Bole", "Piassa", 2, "active"⟩ (by decide)
  · exact lobby_capacity_invariant.2 fullLobbyState 0 2 none
      ⟨0, 1, "Bole", "Piassa", 1, "active"⟩ (by decide) (by decide) (by decide)

/-- C9: any existing membership row for a (lobby, user) pair — its status
may be `'left'` — makes a join attempt fail without inserting anything, and
when the attempt reaches the member check (lobby found active) the error is
the already-a-member rejection; a user who left can therefore never
rejoin. -/
theorem join_rejects_any_existing_row (s : DBState) (lid uid : Nat)
    (pickup : Option String) (m : LobbyMember) (hm : m ∈ s.lobby_members)
    (hml : m.lobby_id = lid) (hmu : m.user_id = uid) :
    ((joinLobby s lid uid pickup).2 = s ∧
      ∃ e, (joinLobby s lid uid pickup).1 = .error e) ∧
    (∀ lobby, s.lobbies.find? (fun l => l.id == lid && l.status == "active") = some lobby →
      (joinLobby s lid uid pickup).1 = .error .alreadyMember) := by
  have hsome : (s.lobby_members.find?
      (fun m => m.lobby_id == lid && m.user_id == uid)).isSome := by
    rw [List.find?_isSome]
    exact ⟨m, hm, by simp [hml, hmu]⟩
  constructor
  · unfold joinLobby
    cases hf : s.lobbies.find? (fun l => l.id == lid && l.status == "active") with
    | none => simp [hf]
    | some lobby => simp [hf, hsome]
  · intro lobby hfind
    unfold joinLobby
    rw [hfind]
    simp [hsome]

/-- A lobby in which user 2 joined and then left. -/
def rejoinState : DBState :=
  (leaveLobby (runOps [LobbyOp.create 1 "Bole" "Piassa" 3, LobbyOp.join 0 2 none]) 0 2).2

/-- Witness for C9: user 2, having left lobby 0, cannot rejoin it. -/
theorem join_rejects_any_existing_row_witness :
    (joinLobby rejoinState 0 2 none).1 = .error .alreadyMember ∧
    (joinLobby rejoinState 0 2 none).2 = rejoinState := by
  have h := join_rejects_any_existing_row rejoinState 0 2 none
    ⟨0, 2, "Bole", "left"⟩ (by decide) rfl rfl
  exact ⟨h.2 ⟨0, 1, "Bole", "Piassa", 3, "active"⟩ (by decide), h.1.1⟩

/- ### C2: the status route has no transition graph -/

/-- A lobby already in the supposedly terminal `'completed'` state. -/
def completedLobbyState : DBState :=
  { initState with
    lobbies := [{ id := 0, creator_id := 1, from_location := "Bole"
                  to_location := "Piassa", available_seats := 2, status := "completed" }]
    next_lobby_id := 1 }

/-- Counterexample to C2: a status-update request by the creator of a
`completed` lobby naming `started` — a target unreachable in the claimed
graph, since `Completed` is supposed to be terminal — succeeds and changes
the lobby instead of failing with `InvalidTransition` and leaving it
unchanged. -/
theorem status_update_ignores_graph_cex :
    (updateLobbyStatus completedLobbyState 0 1 "started").1 = .ok () ∧
    (updateLobbyStatus completedLobbyState 0 1 "started").2.lobbies =
      [{ id := 0, creator_id := 1, from_location := "Bole", to_location := "Piassa"
         available_seats := 2, status := "started" }] := by decide

/-- C2 amended: the REST status route rejects only a target outside the
four-status whitelist (leaving the lobby unchanged); any recognized target
requested by the creator of an existing lobby is written regardless of the
lobby's current status, so no transition graph is enforced and the
`completed`/`cancelled` states are not terminal.  The socket handler writes
any status string whatsoever once the requester is the creator. -/
theorem status_update_no_reachability (s : DBState) (lid uid : Nat) (st : String) :
    (st ∉ validStatuses → updateLobbyStatus s lid uid st = (.error .invalidStatus, s)) ∧
    (∀ lobby, st ∈ validStatuses →
      s.lobbies.find? (fun l => l.id == lid) = some lobby →
      lobby.creator_id = uid →
      (updateLobbyStatus s lid uid st).1 = .ok () ∧
      (updateLobbyStatus s lid uid st).2.lobbies =
        s.lobbies.map (fun l => if l.id == lid then { l with status := st } else l)) ∧
    (∀ lobby, s.lobbies.find? (fun l => l.id == lid && l.creator_id == uid) = some lobby →
      (socketUpdateLobbyStatus s lid uid st).1 = .ok () ∧
      (socketUpdateLobbyStatus s lid uid st).2.lobbies =
        s.lobbies.map (fun l => if l.id == lid then { l with status := st } else l)) := by
  refine ⟨?_, ?_, ?_⟩
  · intro hst
    simp [updateLobbyStatus, hst]
  · intro lobby hstm hfind hcre
    simp [updateLobbyStatus, hstm, hfind, hcre]
  · intro lobby hfind
    simp [socketUpdateLobbyStatus, hfind]

/-- A lobby already in the supposedly terminal `'cancelled'` state. -/
def cancelledLobbyState : DBState :=
  { initState with
    lobbies := [{ id := 0, creator_id := 1, from_location := "Bole"
                  to_location := "Piassa", available_seats := 2, status := "cancelled" }]
    next_lobby_id := 1 }

/-- Witness for the amended C2: the creator reopens a cancelled lobby. -/
theorem status_update_no_reachability_witness :
    (updateLobbyStatus cancelledLobbyState 0 1 "active").1 = .ok () ∧
    (updateLobbyStatus cancelledLobbyState 0 1 "active").2.lobbies =
      [{ id := 0, creator_id := 1, from_location := "Bole", to_location := "Piassa"
         available_seats := 2, status := "active" }] := by
  have h := (status_update_no_reachability cancelledLobbyState 0 1 "active").2.1
    ⟨0, 1, "Bole", "Piassa", 2, "cancelled"⟩ (by decide) (by decide) rfl
  exact ⟨h.1, h.2.trans (by decide)⟩

/- ### C7: creator exit cascades to lobby cancellation -/

/-- C7: when a leave succeeds, the lobby row was found; if the leaver is
the creator the member is marked left and the lobby is cancelled; if not,
the lobbies table is untouched and the only write is that member's row
being marked left. -/
theorem leave_creator_cancels (s : DBState) (lid uid : Nat)
    (hok : (leaveLobby s lid uid).1 = .ok ()) :
    ∃ lobby, s.lobbies.find? (fun l => l.id == lid) = some lobby ∧
      (lobby.creator_id = uid →
        (leaveLobby s lid uid).2.lobby_members = markLeft lid uid s.lobby_members ∧
        (leaveLobby s lid uid).2.lobbies = s.lobbies.map (cancelAt lid) ∧
        (∀ l ∈ (leaveLobby s lid uid).2.lobbies, l.id = lid → l.status = "cancelled")) ∧
      (lobby.creator_id ≠ uid →
        (leaveLobby s lid uid).2.lobby_members = markLeft lid uid s.lobby_members ∧
        (leaveLobby s lid uid).2.lobbies = s.lobbies) := by
  unfold leaveLobby at hok
  cases hf0 : s.lobby_members.find?
      (fun m => m.lobby_id == lid && m.user_id == uid && m.status == "active") with
  | none => rw [hf0] at hok; simp at hok
  | some m0 =>
    rw [hf0] at hok
    cases hf : s.lobbies.find? (fun l => l.id == lid) with
    | none => rw [hf] at hok; simp at hok
    | some lobby =>
      refine ⟨lobby, rfl, ?_, ?_⟩
      · intro hcr
        have hb : (lobby.creator_id == uid) = true := by simp [hcr]
        refine ⟨?_, ?_, ?_⟩
        · simp [leaveLobby, hf0, hf, hb]
        · simp [leaveLobby, hf0, hf, hb]
        · intro l hl hid
          simp only [leaveLobby, hf0, hf, hb, if_true] at hl
          obtain ⟨l0, hl0, rfl⟩ := List.mem_map.mp hl
          have hid0 : (l0.id == lid) = true := by
            rw [cancelAt_id] at hid
            simp [hid]
          unfold cancelAt
          rw [if_pos hid0]
      · intro hcr
        have hb : (lobby.creator_id == uid) = false := by
          simp [hcr]
        constructor
        · simp [leaveLobby, hf0, hf, hb]
        · simp [leaveLobby, hf0, hf, hb]

/-- A capacity-3 lobby with creator 1 and joined member 2. -/
def creatorLeaveState : DBState :=
  runOps [LobbyOp.create 1 "Bole" "Piassa" 3, LobbyOp.join 0 2 none]

/-- Witness for C7: the creator leaving lobby 0 cancels it. -/
theorem leave_creator_cancels_witness :
    (leaveLobby creatorLeaveState 0 1).2.lobbies =
      creatorLeaveState.lobbies.map (cancelAt 0) ∧
    (leaveLobby creatorLeaveState 0 1).2.lobby_members =
      markLeft 0 1 creatorLeaveState.lobby_members := by
  obtain ⟨lobby, hfind, hcr, _⟩ := leave_creator_cancels creatorLeaveState 0 1 (by decide)
  have hone : lobby.creator_id = 1 := by
    have : lobby = ⟨0, 1, "Bole", "Piassa", 3, "active"⟩ := by
      have h2 : creatorLeaveState.lobbies.find? (fun l => l.id == 0) =
          some ⟨0, 1, "Bole", "Piassa", 3, "active"⟩ := by decide
      rw [h2] at hfind
      exact (Option.some_injective _ hfind).symm
    rw [this]
  obtain ⟨hm, hlob, _⟩ := hcr hone
  exact ⟨hlob, hm⟩

/- ### C1/C4/C5: the completion route's dead transaction -/

theorem completeRide_always_fails (s : DBState) (lid uid : Nat) (amt dist : Rat)
    (dur : Nat) : ∃ e, completeRide s lid uid amt dist dur = (.error e, s) := by
  unfold completeRide
  cases hf : s.lobbies.find? (startedLobbyPred lid uid) with
  | none => exact ⟨_, rfl⟩
  | some lobby =>
    by_cases hemp : (activeMembersOf s lid).isEmpty = true
    · simp only [hemp, if_true]
      exact ⟨_, rfl⟩
    · simp only [hemp, Bool.false_eq_true, if_false]
      exact ⟨_, rfl⟩

/-- A started capacity-2 lobby with creator 1 and member 2: the exact
precondition state in which the claims say completion must succeed. -/
def startedLobbyState : DBState :=
  (updateLobbyStatus (runOps [LobbyOp.create 1 "Bole" "Piassa" 2, LobbyOp.join 0 2 none])
    0 1 "started").2

/-- C1 (code bug): at the failing input — the started lobby, its creator
requesting completion, two active members, fare 90 — every claimed
precondition holds, yet the request fails with the TypeError-500 from
`query.pool.connect()` (rides.js line 47, `query` exported without a `pool`
property) and performs none of its writes. -/
theorem complete_ride_pool_bug :
    completeRide startedLobbyState 0 1 90 12 30 =
      (.error .poolUndefined, startedLobbyState) := by decide

/-- C4 (code bug): no completion call ever succeeds — every call returns an
error and leaves the store, in particular its rides table, unchanged — so a
lobby never acquires even one Ride row and the claimed first successful
finalize does not exist. -/
theorem complete_ride_never_succeeds (s : DBState) (lid uid : Nat)
    (amt dist : Rat) (dur : Nat) :
    (∃ e, completeRide s lid uid amt dist dur = (.error e, s)) ∧
    (completeRide s lid uid amt dist dur).2.rides = s.rides := by
  obtain ⟨e, he⟩ := completeRide_always_fails s lid uid amt dist dur
  exact ⟨⟨e, he⟩, by rw [he]⟩

/-- C5 (code bug): the fare-split inserts are unreachable — the participant
table is unchanged by every completion call, so no RideParticipant rows
carrying `totalAmount / n` are ever created. -/
theorem complete_ride_no_fare_split (s : DBState) (lid uid : Nat)
    (amt dist : Rat) (dur : Nat) :
    (completeRide s lid uid amt dist dur).2.ride_participants =
      s.ride_participants := by
  obtain ⟨e, he⟩ := completeRide_always_fails s lid uid amt dist dur
  rw [he]

/- ### C6/C10: rating recomputation -/

/-- C6: after every successful rate call the ratee's stored user rating
equals the arithmetic mean, recomputed from scratch over the resulting
store, of all non-null ratings across all of the ratee's participant rows;
that set of ratings is non-empty (it contains the rating just written). -/
theorem rateParticipant_ok_state (s : DBState) (rid rater ratee score : Nat)
    (review : Option String)
    (hok : (rateParticipant s rid rater ratee score review).1 = .ok ()) :
    (rateParticipant s rid rater ratee score review).2 =
      rateApply s rid ratee score review ∧
    (s.ride_participants.find?
      (fun p => p.ride_id == rid && p.user_id == ratee)).isSome := by
  unfold rateParticipant at hok ⊢
  split_ifs at hok with h1 h2 h3 h4 h5
  rw [Bool.not_eq_true] at h1 h2 h3 h4 h5
  constructor
  · have h1x : score ≠ 0 := by simpa using h1
    have h2x : ¬(score < 1) ∧ ¬(5 < score) := by simpa using h2
    simp [h1x, h2x.2, h3, h4, h5]
  · cases hfp : s.ride_participants.find?
        (fun p => p.ride_id == rid && p.user_id == ratee) with
    | none => rw [hfp] at h4; simp at h4
    | some p => simp

theorem rate_recomputes_mean (s : DBState) (rid rater ratee score : Nat)
    (review : Option String)
    (hok : (rateParticipant s rid rater ratee score review).1 = .ok ()) :
    nonNullRatingsOf
      (rateParticipant s rid rater ratee score review).2.ride_participants ratee ≠ [] ∧
    (∀ u ∈ (rateParticipant s rid rater ratee score review).2.users, u.id = ratee →
      u.rating = meanRating (nonNullRatingsOf
        (rateParticipant s rid rater ratee score review).2.ride_participants ratee)) := by
  obtain ⟨hst, hsome⟩ := rateParticipant_ok_state s rid rater ratee score review hok
  rw [List.find?_isSome] at hsome
  obtain ⟨p0, hp0, hpred⟩ := hsome
  rw [hst]
  constructor
  · have hscore : score ∈ nonNullRatingsOf
        (rateApply s rid ratee score review).ride_participants ratee := by
      unfold rateApply nonNullRatingsOf
      rw [List.mem_filterMap]
      refine ⟨{ p0 with rating := some score, review := review }, ?_, rfl⟩
      rw [List.mem_filter]
      constructor
      · exact List.mem_map.mpr ⟨p0, hp0, by rw [if_pos hpred]⟩
      · simp only [Bool.and_eq_true, beq_iff_eq] at hpred
        simp [hpred.2]
    exact List.ne_nil_of_mem hscore
  · intro u hu hid
    unfold rateApply at hu
    obtain ⟨u0, hu0, rfl⟩ := List.mem_map.mp hu
    by_cases hc : u0.id = ratee
    · rw [if_pos (by simp [hc] : (u0.id == ratee) = true)]
      rfl
    · rw [if_neg (by simp [hc] : ¬((u0.id == ratee) = true))] at hid ⊢
      exact absurd hid hc

/-- A store holding a completed two-participant ride (driver 1, member 2,
both rows unrated) and the two user rows, as the rides and
ride_participants tables would hold them. -/
def rateScenarioState : DBState :=
  { initState with
    users := [{ id := 1, total_rides := 5, rating := 5 },
              { id := 2, total_rides := 3, rating := 4 }]
    rides := [{ id := 0, lobby_id := 0, driver_id := 1, from_location := "Bole"
                to_location := "Piassa", total_amount := 90, distance_km := 12
                duration_minutes := 30, status := "completed" }]
    ride_participants := [
      { ride_id := 0, user_id := 1, amount_paid := 45, pickup_location := "Bole"
        dropoff_location := "Piassa", rating := none, review := none },
      { ride_id := 0, user_id := 2, amount_paid := 45, pickup_location := "Bole"
        dropoff_location := "Piassa", rating := none, review := none }]
    next_ride_id := 1 }

/-- Witness for C6: member 2 rates driver 1 with score 5 on the completed
ride; the rate call goes through and driver 1's non-null rating set is
non-empty afterwards. -/
theorem rate_recomputes_mean_witness :
    nonNullRatingsOf
      (rateParticipant rateScenarioState 0 2 1 5 none).2.ride_participants 1 ≠ [] :=
  (rate_recomputes_mean rateScenarioState 0 2 1 5 none (by decide)).1

/-- A one-participant completed ride: user 7 both drove and rode alone. -/
def selfRateState : DBState :=
  { initState with
    users := [{ id := 7, total_rides := 1, rating := 5 }]
    rides := [{ id := 0, lobby_id := 0, driver_id := 7, from_location := "Bole"
                to_location := "Piassa", total_amount := 100, distance_km := 10
                duration_minutes := 20, status := "completed" }]
    ride_participants := [{ ride_id := 0, user_id := 7, amount_paid := 100
                            pickup_location := "Bole", dropoff_location := "Piassa"
                            rating := none, review := none }]
    next_ride_id := 1 }

/-- C10: the rate route never compares rater and ratee — user 7 rates
themself on ride 0 with score 4; the call succeeds and user 7's own stored
rating changes from 5 to 4. -/
theorem rate_allows_self_rating :
    (rateParticipant selfRateState 0 7 7 4 none).1 = .ok () ∧
    (rateParticipant selfRateState 0 7 7 4 none).2.users =
      [{ id := 7, total_rides := 1, rating := 4 }] := by
  constructor
  · rfl
  · have hmean : meanRating [4] = 4 := by
      norm_num [meanRating]
    have hshape : (rateParticipant selfRateState 0 7 7 4 none).2.users =
        [{ id := 7, total_rides := 1, rating := meanRating [4] }] := rfl
    rw [hshape, hmean]

/- ### C8: chat payload validation -/

/-- An active lobby with one active member, user 1. -/
def chatLobbyState : DBState :=
  { initState with
    lobbies := [{ id := 0, creator_id := 1, from_location := "Bole"
                  to_location := "Piassa", available_seats := 4, status := "active" }]
    lobby_members := [{ lobby_id := 0, user_id := 1, pickup_location := "Bole"
                        status := "active" }]
    next_lobby_id := 1 }

/-- Counterexample to C8: the Socket.IO send_message path persists a chat
message from an active member with an empty payload (length 0, outside
1-1000) and the unrecognized kind `video`. -/
theorem socket_chat_unvalidated_cex :
    (sendMessageSocket chatLobbyState 0 1 "" (some "video")).2.chat_messages =
      [{ lobby_id := 0, user_id := 1, message := "", message_type := "video" }] ∧
    ("" : String).length = 0 ∧
    ¬ ("video" ∈ validMessageTypes) := by decide

/-- C8 amended: messages persisted through the REST chat endpoint satisfy
the invariant — trimmed payload length 1-1000 and kind in
{text, image, location} — but the Socket.IO send_message interface persists
payloads with no validation, so the invariant does not hold for every
interface that appends chat messages. -/
theorem rest_chat_validated (s : DBState) (lid uid : Nat) (msg : String)
    (mt : Option String) (c : ChatMessage)
    (hc : c ∈ (sendMessageRest s lid uid msg mt).2.chat_messages) :
    c ∈ s.chat_messages ∨
      (1 ≤ c.message.length ∧ c.message.length ≤ 1000 ∧
        c.message_type ∈ validMessageTypes) := by
  unfold sendMessageRest at hc
  by_cases h1 : ((trimString msg).length < 1 || 1000 < (trimString msg).length) = true
  · rw [if_pos h1] at hc
    exact Or.inl hc
  · rw [if_neg h1] at hc
    by_cases h2 : (!(decide ((mt.getD "text") ∈ validMessageTypes))) = true
    · rw [if_pos h2] at hc
      exact Or.inl hc
    · rw [if_neg h2] at hc
      revert hc
      cases hf : s.lobby_members.find?
          (fun m => m.lobby_id == lid && m.user_id == uid && m.status == "active") with
      | none => exact fun hc => Or.inl hc
      | some m =>
        intro hc
        rcases List.mem_append.mp hc with hold | hnew
        · exact Or.inl hold
        · simp only [List.mem_singleton] at hnew
          subst hnew
          right
          simp only [Bool.or_eq_true, decide_eq_true_eq, not_or, not_lt] at h1
          refine ⟨h1.1, h1.2, ?_⟩
          simpa using h2

/-- Witness for the amended C8: a valid REST message lands within bounds. -/
theorem rest_chat_validated_witness :
    ({ lobby_id := 0, user_id := 1, message := "hello", message_type := "text" } :
        ChatMessage) ∈ chatLobbyState.chat_messages ∨
      (1 ≤ ({ lobby_id := 0, user_id := 1, message := "hello", message_type := "text" } :
          ChatMessage).message.length ∧
        ({ lobby_id := 0, user_id := 1, message := "hello", message_type := "text" } :
          ChatMessage).message.length ≤ 1000 ∧
        ({ lobby_id := 0, user_id := 1, message := "hello", message_type := "text" } :
          ChatMessage).message_type ∈ validMessageTypes) :=
  rest_chat_validated chatLobbyState 0 1 "hello" none
    { lobby_id := 0, user_id := 1, message := "hello", message_type := "text" }
    (by decide)

example :
    (createLobby initState 1 "Bole" "Piassa" 2).2.lobbies =
      [{ id := 0, creator_id := 1, from_location := "Bole", to_location := "Piassa"
         available_seats := 2, status := "active" }] := by decide

example :
    (joinLobby (createLobby initState 1 "Bole" "Piassa" 2).2 0 2 none).1 = .ok () := by decide

example :
    (joinLobby (joinLobby (createLobby initState 1 "Bole" "Piassa" 2).2 0 2 none).2
      0 3 none).1 = .error .lobbyFull := by decide
